import Mathlib

/-!
Shallow embedding of the strategy selection and order construction engine
(strategies.py, strategy_selector.py, risk_manager.py, trade_executor.py,
utils.py) together with proofs about the embedded definitions.

Python floats are modelled as rationals, dicts of order parameters as
structures, and raised exceptions as `Option`/empty results where the
source catches them.
-/

/-- Calendar date (Gregorian). -/
structure Date where
  year : ℕ
  month : ℕ
  day : ℕ
deriving DecidableEq, Repr

/-- Leap-year rule used by the Gregorian calendar. -/
def isLeap (y : ℕ) : Bool :=
  (y % 4 == 0 && y % 100 != 0) || y % 400 == 0

/-- Number of days in a month. -/
def daysInMonth (y m : ℕ) : ℕ :=
  if m == 2 then (if isLeap y then 29 else 28)
  else if m == 4 || m == 6 || m == 9 || m == 11 then 30
  else 31

/-- Successor day, rolling over months and years. -/
def nextDay (d : Date) : Date :=
  if d.day < daysInMonth d.year d.month then ⟨d.year, d.month, d.day + 1⟩
  else if d.month < 12 then ⟨d.year, d.month + 1, 1⟩
  else ⟨d.year + 1, 1, 1⟩

/-- `date + timedelta(days = n)`. -/
def addDays (d : Date) : ℕ → Date
  | 0 => d
  | n + 1 => nextDay (addDays d n)

/-- Floor of a rational as an integer (`Int.fdiv` floors since `den > 0`). -/
def ratFloor (q : ℚ) : ℤ := Int.fdiv q.num q.den

/-- Python `round(q)`: round half to even (bankers rounding), returning an integer. -/
def pyRound (q : ℚ) : ℤ :=
  let f := ratFloor q
  let frac := q - (f : ℚ)
  if frac < 1 / 2 then f
  else if 1 / 2 < frac then f + 1
  else if f % 2 = 0 then f else f + 1

/-- Python `round(q, 2)`: round half to even at two decimal places. -/
def roundTo2 (q : ℚ) : ℚ := (pyRound (q * 100) : ℚ) / 100

/-- Zero-pad the decimal representation of a natural number to width `w`. -/
def natPad (w : ℕ) (n : ℕ) : String :=
  let s := toString n
  if s.length < w then String.mk (List.replicate (w - s.length) '0') ++ s else s

/-- Python `f"{n:08d}"` for an integer: for negatives the sign occupies one of
the eight positions. -/
def intPad8 (n : ℤ) : String :=
  if n < 0 then "-" ++ natPad 7 n.natAbs else natPad 8 n.toNat

/-- utils.format_option_symbol: `{ticker}{YYMMDD}{C/P}{strike*1000 padded 8}`. -/
def format_option_symbol (ticker : String) (expiration : Date) (strike : ℤ)
    (optType : String) : String :=
  ticker ++ natPad 2 (expiration.year % 100) ++ natPad 2 expiration.month ++
    natPad 2 expiration.day ++ (if optType == "call" then "C" else "P") ++
    intPad8 (strike * 1000)

/-- One order parameter dict as produced by the strategy `run` methods. -/
structure Order where
  symbol : String
  qty : ℕ
  side : String
  otype : String
  tif : String
deriving DecidableEq, Repr

/-- Order dict with qty 1, market type, day time-in-force (the shape every
strategy emits). -/
def mkOrder (symbol side : String) : Order :=
  ⟨symbol, 1, side, "market", "day"⟩

/-- The data dict passed to `score`/`run` when every key is present (as built
by StrategySelector.select). -/
structure Data where
  trend : String
  iv : ℚ
  momentum : String
  iv_threshold : ℚ
  ticker : String
  price : ℚ
  expiration : Date
deriving DecidableEq, Repr

/-- The strategy catalog: one constructor per `Strategy` subclass of
strategies.py, in definition order. -/
inductive SClass
  | longCall
  | longPut
  | straddle
  | ironCondor
  | verticalSpread
  | bullCallSpread
  | bearPutSpread
  | calendarSpread
  | ironButterfly
  | gammaScalping
  | wheel
  | zeroDTE
  | strangle
  | shortStraddle
  | coveredCall
  | protectivePut
  | ratioBackspread
  | collar
deriving DecidableEq, Repr

/-- `cls.__name__` of each strategy class. -/
def className : SClass → String
  | .longCall => "LongCall"
  | .longPut => "LongPut"
  | .straddle => "Straddle"
  | .ironCondor => "IronCondor"
  | .verticalSpread => "VerticalSpread"
  | .bullCallSpread => "BullCallSpread"
  | .bearPutSpread => "BearPutSpread"
  | .calendarSpread => "CalendarSpread"
  | .ironButterfly => "IronButterfly"
  | .gammaScalping => "GammaScalping"
  | .wheel => "Wheel"
  | .zeroDTE => "ZeroDTE"
  | .strangle => "Strangle"
  | .shortStraddle => "ShortStraddle"
  | .coveredCall => "CoveredCall"
  | .protectivePut => "ProtectivePut"
  | .ratioBackspread => "RatioBackspread"
  | .collar => "Collar"

/-- `getattr(cls, "phase", 1)`.  The base class sets `phase = 1`;
BullCallSpread, CalendarSpread, GammaScalping, Wheel, ZeroDTE, Strangle,
ShortStraddle, CoveredCall, ProtectivePut, RatioBackspread and Collar
override it with `phase = 2`.  BearPutSpread and IronButterfly declare no
`phase` attribute of their own and so inherit 1. -/
def phaseOf : SClass → ℕ
  | .bullCallSpread => 2
  | .calendarSpread => 2
  | .gammaScalping => 2
  | .wheel => 2
  | .zeroDTE => 2
  | .strangle => 2
  | .shortStraddle => 2
  | .coveredCall => 2
  | .protectivePut => 2
  | .ratioBackspread => 2
  | .collar => 2
  | _ => 1

/-- All strategy classes in module definition order (the order
`vars(strategies).values()` iterates them). -/
def catalog : List SClass :=
  [.longCall, .longPut, .straddle, .ironCondor, .verticalSpread,
   .bullCallSpread, .bearPutSpread, .calendarSpread, .ironButterfly,
   .gammaScalping, .wheel, .zeroDTE, .strangle, .shortStraddle,
   .coveredCall, .protectivePut, .ratioBackspread, .collar]

/-- `cls.score(data)` for each strategy, on a data dict with all keys present.
`today` is `date.today()`, consulted only by ZeroDTE. -/
def scoreOf (today : Date) (c : SClass) (d : Data) : ℚ :=
  match c with
  | .longCall =>
      (if d.trend == "bullish" && d.momentum == "positive" then 2 else 0) +
      (if d.iv < d.iv_threshold then 1 else 0)
  | .longPut =>
      (if d.trend == "bearish" && d.momentum == "negative" then 2 else 0) +
      (if d.iv < d.iv_threshold then 1 else 0)
  | .straddle =>
      if d.trend == "neutral" then
        1 + (if d.iv < d.iv_threshold then 1 else 0)
      else 0
  | .ironCondor =>
      if d.trend == "neutral" then
        1 + (if d.iv_threshold ≤ d.iv then 2 else 0)
      else 0
  | .verticalSpread => 1 / 2
  | .bullCallSpread =>
      (if d.trend == "bullish" && d.momentum == "positive" then 2 else 0) +
      (if d.iv < d.iv_threshold then 1 else 0)
  | .bearPutSpread =>
      (if d.trend == "bearish" && d.momentum == "negative" then 2 else 0) +
      (if d.iv < d.iv_threshold then 1 else 0)
  | .calendarSpread =>
      (if d.trend == "neutral" then 2 else 0) +
      (if d.iv < d.iv_threshold ∨ (d.trend == "bearish" ∧ d.iv_threshold ≤ d.iv)
        then 1 else 0)
  | .ironButterfly =>
      (if d.trend == "neutral" then 2 else 0) +
      (if (d.trend != "bearish" ∧ d.iv_threshold ≤ d.iv) ∨
          (d.trend == "bearish" ∧ d.iv < d.iv_threshold) then 1 else 0)
  | .gammaScalping => 0
  | .wheel =>
      (if d.trend == "bullish" && d.momentum == "positive" then 2 else 0) +
      (if d.iv_threshold ≤ d.iv then 1 else 0)
  | .zeroDTE =>
      if d.expiration = today then
        (if d.momentum == "positive" || d.momentum == "negative" then 2 else 0) +
        (if d.iv < d.iv_threshold then 1 else 0)
      else 0
  | .strangle =>
      if d.trend == "neutral" then
        1 + (if d.iv < d.iv_threshold then 1 else 0)
      else 0
  | .shortStraddle =>
      if d.trend == "neutral" then
        1 + (if d.iv_threshold ≤ d.iv then 1 else 0)
      else 0
  | .coveredCall =>
      (if d.trend == "bullish" && d.momentum == "positive" then 2 else 0) +
      (if d.iv_threshold ≤ d.iv then 1 else 0)
  | .protectivePut =>
      (if d.trend == "bearish" && d.momentum == "negative" then 2 else 0) +
      (if d.iv_threshold ≤ d.iv then 1 else 0)
  | .ratioBackspread =>
      (if d.trend == "bullish" && d.momentum == "positive" then 2
       else if d.trend == "bearish" && d.momentum == "negative" then 2 else 0) +
      (if d.iv < d.iv_threshold then 1 else 0)
  | .collar =>
      (if d.trend == "neutral" then 2 else 0) +
      (if d.iv_threshold ≤ d.iv then 1 else 0)

/-- At-the-money strike `round(price)`. -/
def atmOf (d : Data) : ℤ := pyRound d.price

/-- `cls().run(data)` for each strategy, on a data dict with all keys present.
Strike/type/side leg tuples follow the source literally, including which
strategies check for non-positive strikes and how (per-leg `continue`
versus whole-strategy empty return versus no check at all). -/
def runOf (today : Date) (c : SClass) (d : Data) : List Order :=
  match c with
  | .longCall =>
      [mkOrder (format_option_symbol d.ticker d.expiration (atmOf d) "call") "buy"]
  | .longPut =>
      [mkOrder (format_option_symbol d.ticker d.expiration (atmOf d) "put") "buy"]
  | .straddle =>
      [mkOrder (format_option_symbol d.ticker d.expiration (atmOf d) "call") "buy",
       mkOrder (format_option_symbol d.ticker d.expiration (atmOf d) "put") "buy"]
  | .ironCondor =>
      let atm := atmOf d
      if atm - 4 ≤ 0 ∨ atm - 2 ≤ 0 ∨ atm + 2 ≤ 0 ∨ atm + 4 ≤ 0 then []
      else
        [mkOrder (format_option_symbol d.ticker d.expiration (atm - 4) "put") "buy",
         mkOrder (format_option_symbol d.ticker d.expiration (atm - 2) "put") "sell",
         mkOrder (format_option_symbol d.ticker d.expiration (atm + 2) "call") "sell",
         mkOrder (format_option_symbol d.ticker d.expiration (atm + 4) "call") "buy"]
  | .verticalSpread =>
      let atm := atmOf d
      let legs : List (ℤ × String × String) :=
        if d.trend == "bullish" then [(atm, "call", "buy"), (atm + 2, "call", "sell")]
        else if d.trend == "bearish" then [(atm, "put", "buy"), (atm - 2, "put", "sell")]
        else [(atm, "call", "buy"), (atm + 2, "call", "sell")]
      (legs.filter (fun l => 0 < l.1)).map
        (fun l => mkOrder (format_option_symbol d.ticker d.expiration l.1 l.2.1) l.2.2)
  | .bullCallSpread =>
      if d.trend != "bullish" then []
      else
        let atm := atmOf d
        let legs : List (ℤ × String × String) :=
          [(atm, "call", "buy"), (atm + 2, "call", "sell")]
        (legs.filter (fun l => 0 < l.1)).map
          (fun l => mkOrder (format_option_symbol d.ticker d.expiration l.1 l.2.1) l.2.2)
  | .bearPutSpread =>
      if d.trend != "bearish" then []
      else
        let atm := atmOf d
        let legs : List (ℤ × String × String) :=
          [(atm, "put", "buy"), (atm - 2, "put", "sell")]
        (legs.filter (fun l => 0 < l.1)).map
          (fun l => mkOrder (format_option_symbol d.ticker d.expiration l.1 l.2.1) l.2.2)
  | .calendarSpread =>
      if d.trend != "neutral" then []
      else
        let atm := atmOf d
        let far := addDays d.expiration 7
        let legs : List (ℤ × String × String × Date) :=
          [(atm, "call", "buy", far), (atm, "call", "sell", d.expiration)]
        (legs.filter (fun l => 0 < l.1)).map
          (fun l => mkOrder (format_option_symbol d.ticker l.2.2.2 l.1 l.2.1) l.2.2.1)
  | .ironButterfly =>
      if d.trend != "neutral" then []
      else
        let atm := atmOf d
        let legs : List (ℤ × String × String) :=
          [(atm - 2, "put", "buy"), (atm, "put", "sell"),
           (atm, "call", "sell"), (atm + 2, "call", "buy")]
        (legs.filter (fun l => 0 < l.1)).map
          (fun l => mkOrder (format_option_symbol d.ticker d.expiration l.1 l.2.1) l.2.2)
  | .gammaScalping =>
      [mkOrder (format_option_symbol d.ticker d.expiration (atmOf d) "call") "buy",
       mkOrder (format_option_symbol d.ticker d.expiration (atmOf d) "put") "buy"]
  | .wheel =>
      if d.trend != "bullish" || d.momentum != "positive" then []
      else
        let strike := atmOf d - 2
        if strike ≤ 0 then []
        else [mkOrder (format_option_symbol d.ticker d.expiration strike "put") "sell"]
  | .zeroDTE =>
      if d.expiration ≠ today then []
      else if d.momentum == "positive" then
        [mkOrder (format_option_symbol d.ticker d.expiration (atmOf d) "call") "buy"]
      else if d.momentum == "negative" then
        [mkOrder (format_option_symbol d.ticker d.expiration (atmOf d) "put") "buy"]
      else []
  | .strangle =>
      if d.trend != "neutral" then []
      else
        let atm := atmOf d
        if atm - 2 ≤ 0 then []
        else
          [mkOrder (format_option_symbol d.ticker d.expiration (atm - 2) "put") "buy",
           mkOrder (format_option_symbol d.ticker d.expiration (atm + 2) "call") "buy"]
  | .shortStraddle =>
      if d.trend != "neutral" then []
      else
        [mkOrder (format_option_symbol d.ticker d.expiration (atmOf d) "put") "sell",
         mkOrder (format_option_symbol d.ticker d.expiration (atmOf d) "call") "sell"]
  | .coveredCall =>
      if d.trend != "bullish" || d.momentum != "positive" then []
      else
        [mkOrder (format_option_symbol d.ticker d.expiration (atmOf d) "call") "sell"]
  | .protectivePut =>
      if d.trend != "bearish" || d.momentum != "negative" then []
      else
        [mkOrder (format_option_symbol d.ticker d.expiration (atmOf d) "put") "buy"]
  | .ratioBackspread =>
      let atm := atmOf d
      if d.momentum == "positive" then
        [mkOrder (format_option_symbol d.ticker d.expiration atm "call") "sell",
         mkOrder (format_option_symbol d.ticker d.expiration (atm + 2) "call") "buy",
         mkOrder (format_option_symbol d.ticker d.expiration (atm + 2) "call") "buy"]
      else if d.momentum == "negative" then
        if atm - 2 ≤ 0 then []
        else
          [mkOrder (format_option_symbol d.ticker d.expiration atm "put") "sell",
           mkOrder (format_option_symbol d.ticker d.expiration (atm - 2) "put") "buy",
           mkOrder (format_option_symbol d.ticker d.expiration (atm - 2) "put") "buy"]
      else []
  | .collar =>
      if d.trend != "neutral" then []
      else
        let atm := atmOf d
        if atm - 2 ≤ 0 then []
        else
          [mkOrder (format_option_symbol d.ticker d.expiration (atm + 2) "call") "sell",
           mkOrder (format_option_symbol d.ticker d.expiration (atm - 2) "put") "buy"]

example : format_option_symbol "XYZ" ⟨2025, 10, 17⟩ 96 "put" = "XYZ251017P00096000" := by
  decide

/-- Stable ascending insertion by class name (the comparison python
`sorted(..., key=lambda c: c.__name__)` performs). -/
def insertByName (c : SClass) : List SClass → List SClass
  | [] => [c]
  | x :: xs =>
      if className x ≤ className c then x :: insertByName c xs
      else c :: x :: xs

/-- Ascending sort by class name, as `sorted(..., key=lambda c: c.__name__)`. -/
def sortByName : List SClass → List SClass
  | [] => []
  | x :: xs => insertByName x (sortByName xs)

/-- The name tie-break of StrategySelector.select:
`sorted(leg_winners, key=lambda c: c.__name__)[0]`. -/
def nameTieBreak (ws : List SClass) : Option SClass :=
  (sortByName ws).head?

/-- The tie-break block of StrategySelector.select, given the tied
`best_classes` (in catalog order).  Returns the resolved `best_cls`. -/
def resolveTie (today : Date) (phase : ℕ) (d : Data) : List SClass → Option SClass
  | [] => none
  | [c] => some c
  | c₁ :: c₂ :: rest =>
      if 1 < phase then
        if d.trend == "neutral" ∧ d.iv_threshold ≤ d.iv ∧
            (c₁ :: c₂ :: rest).contains SClass.collar then
          some SClass.collar
        else
          let withLegs := (c₁ :: c₂ :: rest).map
            (fun c => (c, (runOf today c d).length))
          match (withLegs.map Prod.snd).max? with
          | none => none
          | some maxLegs =>
            match (withLegs.filter (fun cl => cl.2 == maxLegs)).map Prod.fst with
            | [w] => some w
            | ws => nameTieBreak ws
      else some c₁

/-- The classes eligible at a given phase ceiling:
`getattr(obj, "phase", 1) <= self.phase`, in catalog order. -/
def eligible (phase : ℕ) : List SClass :=
  catalog.filter (fun c => phaseOf c ≤ phase)

/-- The data dict select builds: caller metrics plus the dummy probe fields
`ticker="DUMMY"`, `price=100.0`, `expiration=date.today()`. -/
def dataFor (today : Date) (ivTh : ℚ) (trend : String) (iv : ℚ)
    (momentum : String) : Data :=
  ⟨trend, iv, momentum, ivTh, "DUMMY", 100, today⟩

/-- `best_score = max(scores.values())` over the eligible classes
(`none` only when no class is eligible, i.e. phase 0, where the python
raises ValueError). -/
def bestScoreOf (today : Date) (phase : ℕ) (d : Data) : Option ℚ :=
  ((eligible phase).map (fun c => scoreOf today c d)).max?

/-- `best_classes`: the eligible classes whose score equals `best`. -/
def bestClassesOf (today : Date) (phase : ℕ) (d : Data) (best : ℚ) : List SClass :=
  (eligible phase).filter (fun c => scoreOf today c d = best)

/-- StrategySelector instance state (`__init__`): iv_threshold, phase, and the
stored-but-never-read whitelist. -/
structure StrategySelector where
  iv_threshold : ℚ := 1 / 4
  phase : ℕ := 1
  allowed_strategies : List String := []

/-- The long-put veto at the end of select: in advanced phases a resolved
LongPut winner becomes "no trade". -/
def afterTie (p : ℕ) : Option SClass → Option SClass
  | none => none
  | some w => if 1 < p ∧ w = SClass.longPut then none else some w

/-- The part of select that runs once `best_score` is known: the advanced
confidence gate, then tie resolution, then the long-put veto. -/
def afterBest (today : Date) (p : ℕ) (d : Data) (best : ℚ) : Option SClass :=
  if 1 < p ∧ best < 2 then none
  else afterTie p (resolveTie today p d (bestClassesOf today p d best))

/-- The body of StrategySelector.select for a phase ceiling `p` and threshold
`ivTh`.  On a data dict with every key present no `score` call raises, so
the caught-exception −∞ branch is dead and the scores are exactly
`scoreOf`.  Returns `none` for "no trade". -/
def selectCore (today : Date) (p : ℕ) (ivTh : ℚ) (trend : String) (iv : ℚ)
    (momentum : String) : Option SClass :=
  match bestScoreOf today p (dataFor today ivTh trend iv momentum) with
  | none => none
  | some best => afterBest today p (dataFor today ivTh trend iv momentum) best

/-- StrategySelector.select: reads only the phase and iv_threshold fields of
the selector instance (never the stored whitelist). -/
def StrategySelector.select (s : StrategySelector) (today : Date)
    (trend : String) (iv : ℚ) (momentum : String) : Option SClass :=
  selectCore today s.phase s.iv_threshold trend iv momentum

example :
    (StrategySelector.mk (1 / 4) 1 []).select ⟨2025, 10, 17⟩ "bullish" (1 / 10)
      "positive" = some SClass.longCall := by with_unfolding_all decide

example :
    (StrategySelector.mk (1 / 4) 1 []).select ⟨2025, 10, 17⟩ "neutral" (3 / 10)
      "negative" = some SClass.ironCondor := by with_unfolding_all decide

set_option maxRecDepth 4000 in
example :
    (StrategySelector.mk (1 / 4) 2 []).select ⟨2025, 10, 17⟩ "bullish" (1 / 2)
      "positive" = some SClass.coveredCall := by with_unfolding_all decide

/-- Order dict as handled by RiskManager.adjust_orders: the strategy fields
plus the optionally attached stop-loss / take-profit / trailing-stop keys. -/
structure RiskOrder where
  symbol : String
  qty : ℕ
  side : String
  otype : String
  tif : String
  stop_loss : Option ℚ := none
  take_profit : Option ℚ := none
  trailing_stop_pct : Option ℚ := none
deriving DecidableEq, Repr

/-- View a strategy order as a risk order (no protective keys yet). -/
def Order.toRisk (o : Order) : RiskOrder :=
  ⟨o.symbol, o.qty, o.side, o.otype, o.tif, none, none, none⟩

/-- RiskManager constructor parameters, with the source defaults. -/
structure RiskManager where
  atr_period : ℕ := 14
  stop_loss_pct : ℚ := 1 / 100
  take_profit_pct : ℚ := 8 / 100
  atr_stop_multiplier : ℚ := 3 / 2
  atr_take_profit_multiplier : ℚ := 5 / 2
  trailing_stop_pct : ℚ := 1 / 50

/-- The market-data fields RiskManager.adjust_orders reads
(data.get of iv with default 0.0, of price with `or 0.0`, and of
close_prices with default empty list, already applied). -/
structure RiskData where
  iv : ℚ
  price : ℚ
  close_prices : List ℚ

/-- Python `int(q)` for a non-negative rational: truncation = floor. -/
def truncToNat (q : ℚ) : ℕ := (ratFloor q).toNat

/-- RiskManager.adjust_orders: empty list passes through, multi-leg lists are
returned unchanged, a single order gets volatility-scaled quantity, ATR or
static-percentage stop/target prices (rounded to 2 decimals), and the
trailing-stop annotation. -/
def RiskManager.adjust_orders (self : RiskManager) (orders : List RiskOrder)
    (data : RiskData) : List RiskOrder :=
  match orders with
  | [] => []
  | _ :: _ :: _ => orders
  | [o] =>
    let factor := max (1 / 10) (1 - data.iv)
    let new_qty := max 1 (truncToNat ((o.qty : ℚ) * factor))
    let price := data.price
    let side := o.side
    let diffs := (List.zip data.close_prices.tail data.close_prices).map
      (fun p => |p.1 - p.2|)
    let atr : Option ℚ :=
      if (0 < self.atr_stop_multiplier ∨ 0 < self.atr_take_profit_multiplier) ∧
          self.atr_period < data.close_prices.length then
        let recent := diffs.drop (diffs.length - self.atr_period)
        if recent.length ≠ 0 then some (recent.sum / recent.length) else none
      else none
    let prices : ℚ × ℚ :=
      match atr with
      | some a =>
          if side == "buy" then
            (roundTo2 (price - self.atr_stop_multiplier * a),
             roundTo2 (price + self.atr_take_profit_multiplier * a))
          else
            (roundTo2 (price + self.atr_stop_multiplier * a),
             roundTo2 (price - self.atr_take_profit_multiplier * a))
      | none =>
          if side == "buy" then
            (roundTo2 (price * (1 - self.stop_loss_pct)),
             roundTo2 (price * (1 + self.take_profit_pct)))
          else
            (roundTo2 (price * (1 + self.stop_loss_pct)),
             roundTo2 (price * (1 - self.take_profit_pct)))
    [{ o with
        qty := new_qty
        stop_loss := some prices.1
        take_profit := some prices.2
        trailing_stop_pct :=
          if self.trailing_stop_pct ≠ 0 ∧ side ≠ "" then
            some self.trailing_stop_pct
          else o.trailing_stop_pct }]

/-- Order side enum (alpaca OrderSide); strategy orders only ever carry
`buy` or `sell`, the two values the enum conversion accepts. -/
inductive Side
  | buy
  | sell
deriving DecidableEq, Repr

/-- Time-in-force enum; strategy orders always carry `day`. -/
inductive TIF
  | day
deriving DecidableEq, Repr

/-- Order type enum; strategy orders always carry `market`. -/
inductive OType
  | market
deriving DecidableEq, Repr

/-- A finished order intent handed to TradeExecutor.execute. -/
structure Intent where
  symbol : String
  qty : ℕ
  side : Side
  otype : OType
  tif : TIF
deriving DecidableEq, Repr

/-- One leg of a multi-leg request (alpaca OptionLegRequest). -/
structure OptionLeg where
  symbol : String
  ratio_qty : ℕ
  side : Side
deriving DecidableEq, Repr

/-- A brokerage request (alpaca MarketOrderRequest): either a plain single
order or a multi-leg (mleg) order. -/
inductive Request
  | single (symbol : String) (qty : ℕ) (side : Side) (otype : OType) (tif : TIF)
  | mleg (qty : ℕ) (tif : TIF) (legs : List OptionLeg)
deriving DecidableEq, Repr

/-- The leg built from one intent inside the multi-leg branch. -/
def Intent.toLeg (o : Intent) : OptionLeg := ⟨o.symbol, o.qty, o.side⟩

/-- The single-order request built from one intent. -/
def Intent.toSingle (o : Intent) : Request :=
  .single o.symbol o.qty o.side o.otype o.tif

/-- TradeExecutor state: dry_run flag and the transport boundary.
`transport n` tells whether the n-th submission call made by this execute
call succeeds (the alpaca client is external; its behaviour is the oracle). -/
structure TradeExecutor where
  dry_run : Bool := false

/-- TradeExecutor._submit under `@retry(stop=stop_after_attempt(3))`: up to
three transport calls starting at index `start`; returns whether a call
succeeded and how many calls were made.  A third failure raises RetryError,
which the caller catches. -/
def submitWithRetry (transport : ℕ → Bool) (start : ℕ) : Bool × ℕ :=
  if transport start then (true, 1)
  else if transport (start + 1) then (true, 2)
  else if transport (start + 2) then (true, 3)
  else (false, 3)

/-- TradeExecutor.execute.  Returns the list of results (the echoed request
for every successful or dry-run submission) and the number of transport
calls made.  Failures are caught and logged, never re-raised, so the
function is total. -/
def TradeExecutor.execute (self : TradeExecutor) (transport : ℕ → Bool)
    (orders : List Intent) : List Request × ℕ :=
  match orders with
  | [] => ([], 0)
  | o :: rest =>
    match rest with
    | _ :: _ =>
        let req : Request := .mleg o.qty o.tif ((o :: rest).map Intent.toLeg)
        if self.dry_run then ([req], 0)
        else
          let r := submitWithRetry transport 0
          (if r.1 then [req] else [], r.2)
    | [] =>
        let req := o.toSingle
        if self.dry_run then ([req], 0)
        else
          let r := submitWithRetry transport 0
          (if r.1 then [req] else [], r.2)

/-- A market snapshot dict in which the scored keys may be missing
(`trend`, `iv`, `momentum`, `iv_threshold`). -/
structure PartialData where
  trend : Option String
  iv : Option ℚ
  momentum : Option String
  iv_threshold : Option ℚ

/-- LongCall.score on a possibly-partial dict: the source subscripts
`data["trend"]`, `data["iv"]`, `data["momentum"]`, `data["iv_threshold"]`
directly, so a missing key raises KeyError (modelled as `none`). -/
def longCallScoreP (d : PartialData) : Option ℚ := do
  let trend ← d.trend
  let iv ← d.iv
  let momentum ← d.momentum
  let iv_th ← d.iv_threshold
  return (if trend == "bullish" && momentum == "positive" then 2 else 0) +
    (if iv < iv_th then 1 else 0)

/-- BullCallSpread.score on a possibly-partial dict: the source uses
`data.get("trend")`, `data.get("momentum")`, `data.get("iv", 0.0)`,
`data.get("iv_threshold", 0.25)`, so it never raises; a missing trend or
momentum is `None`, which matches no signal. -/
def bullCallSpreadScoreP (d : PartialData) : ℚ :=
  (if d.trend == some "bullish" && d.momentum == some "positive" then 2 else 0) +
  (if d.iv.getD 0 < d.iv_threshold.getD (1 / 4) then 1 else 0)

/-- BearPutSpread.score on a possibly-partial dict, same `.get` pattern. -/
def bearPutSpreadScoreP (d : PartialData) : ℚ :=
  (if d.trend == some "bearish" && d.momentum == some "negative" then 2 else 0) +
  (if d.iv.getD 0 < d.iv_threshold.getD (1 / 4) then 1 else 0)

/-- A fixed evaluation date used for concrete instances. -/
def today0 : Date := ⟨2025, 10, 17⟩

/-- Concrete selector metrics: bullish, iv 0.5, positive momentum. -/
def dBull : Data := dataFor today0 (1 / 4) "bullish" (1 / 2) "positive"

/-- Concrete selector metrics: bearish, iv 0.1, negative momentum. -/
def dBear : Data := dataFor today0 (1 / 4) "bearish" (1 / 10) "negative"

/-- A single buy-side risk order at quantity 1. -/
def o100 : RiskOrder :=
  ⟨"OPT251017C00100000", 1, "buy", "market", "day", none, none, none⟩

/-- Risk snapshot: price 100, iv 0.5, no close-price history (so ATR is not
computable). -/
def rd100 : RiskData := ⟨1 / 2, 100, []⟩

/-- C1 (code_bug evidence): with a phase-1 selector, BearPutSpread and
IronButterfly ARE eligible, scored and tie-broken, because both classes
omit the `phase = 2` attribute that every other class in the phase-2
section declares, and so inherit `phase = 1` from the base class.  On
bearish/negative/low-iv metrics, BearPutSpread scores 3 and is in the tied
best set that phase-1 tie-breaking resolves. -/
theorem phase2_stubs_eligible_at_phase1 :
    phaseOf SClass.bearPutSpread = 1 ∧ phaseOf SClass.ironButterfly = 1 ∧
    SClass.bearPutSpread ∈ eligible 1 ∧ SClass.ironButterfly ∈ eligible 1 ∧
    scoreOf today0 SClass.bearPutSpread dBear = 3 ∧
    bestClassesOf today0 1 dBear 3 = [SClass.longPut, SClass.bearPutSpread] := by
  with_unfolding_all decide

set_option maxRecDepth 8000 in
/-- C7: on a snapshot with ticker XYZ, price 100.0, expiration 2025-10-17,
IronCondor.run returns exactly the four legs at strikes 96, 98, 102, 104
with sides buy/sell/sell/buy, types put/put/call/call, and the exact OCC
symbols (the run method reads only ticker, price and expiration, so the
metric fields below are arbitrary). -/
theorem ironCondor_run_occ :
    runOf today0 SClass.ironCondor
        ⟨"neutral", 3 / 10, "neutral", 1 / 4, "XYZ", 100, ⟨2025, 10, 17⟩⟩ =
      [⟨"XYZ251017P00096000", 1, "buy", "market", "day"⟩,
       ⟨"XYZ251017P00098000", 1, "sell", "market", "day"⟩,
       ⟨"XYZ251017C00102000", 1, "sell", "market", "day"⟩,
       ⟨"XYZ251017C00104000", 1, "buy", "market", "day"⟩] := by
  with_unfolding_all decide

/-- C5 counterexample: for the single buy order at price 100 with iv 0.5 and
no ATR history, the default static-percentage mode sets the stop-loss to
99.00 (= round(100 * (1 - 0.01), 2)), not 90.00 as the claim states. -/
theorem risk_stop_not_90 :
    (({} : RiskManager).adjust_orders [o100] rd100).map RiskOrder.stop_loss = [some 99] ∧
    (({} : RiskManager).adjust_orders [o100] rd100).map RiskOrder.stop_loss ≠ [some 90] := by
  with_unfolding_all decide

/-- C5 amended: with defaults stopPct = 0.01 and profitPct = 0.08, the single
buy order at price 100 with iv 0.5 and no ATR history gets
stopLossPrice = 99.00 and takeProfitPrice = 108.00, exactly
round(price * (1 - stopPct), 2) and round(price * (1 + profitPct), 2). -/
theorem risk_static_pct_values :
    ({} : RiskManager).adjust_orders [o100] rd100 =
      [⟨"OPT251017C00100000", 1, "buy", "market", "day",
        some 99, some 108, some (1 / 50)⟩] ∧
    roundTo2 (100 * (1 - 1 / 100)) = 99 ∧
    roundTo2 (100 * (1 + 8 / 100)) = 108 := by
  with_unfolding_all decide

/-- C3 counterexample: LongCall.score subscripts the dict directly, so on a
snapshot missing `trend` it raises KeyError (modelled as `none`) instead of
treating the field as a default, while the `.get`-based BullCallSpread.score
on the same snapshot returns 1. -/
theorem longCall_score_missing_trend :
    longCallScoreP ⟨none, some (1 / 10), some "positive", some (1 / 4)⟩ = none ∧
    bullCallSpreadScoreP ⟨none, some (1 / 10), some "positive", some (1 / 4)⟩ = 1 := by
  with_unfolding_all decide

/-- C3 amended: the `.get`-based scores (BullCallSpread, BearPutSpread, and
the other phase-2-section strategies) are total with defaults iv = 0.0 and
ivThreshold = 0.25 (absent trend/momentum match no signal), and agree with
the full-snapshot scores when every field is present; the original
dict-subscripting scores (LongCall and its siblings) succeed exactly when
all four of trend, iv, momentum, ivThreshold are present. -/
theorem get_based_scores_total :
    (∀ d : PartialData,
      bullCallSpreadScoreP d =
        bullCallSpreadScoreP ⟨d.trend, some (d.iv.getD 0), d.momentum,
          some (d.iv_threshold.getD (1 / 4))⟩) ∧
    (∀ d : PartialData,
      (longCallScoreP d).isSome ↔
        (d.trend.isSome ∧ d.iv.isSome ∧ d.momentum.isSome ∧ d.iv_threshold.isSome)) ∧
    (∀ (today : Date) (d : Data),
      longCallScoreP ⟨some d.trend, some d.iv, some d.momentum, some d.iv_threshold⟩ =
        some (scoreOf today SClass.longCall d)) ∧
    (∀ (today : Date) (d : Data),
      bullCallSpreadScoreP ⟨some d.trend, some d.iv, some d.momentum, some d.iv_threshold⟩ =
        scoreOf today SClass.bullCallSpread d) := by
  refine ⟨?_, ?_, ?_, ?_⟩
  · rintro ⟨t, i, m, th⟩
    cases i <;> cases th <;> rfl
  · rintro ⟨t, i, m, th⟩
    cases t <;> cases i <;> cases m <;> cases th <;>
      simp [longCallScoreP]
  · intro today d; rfl
  · intro today d; rfl

/-- C4 counterexample: VerticalSpread on a bearish snapshot at price 1 keeps
its buy leg (strike 1) but drops the sell leg (strike −1), returning a
partial one-leg subset of the two-leg spread; and LongCall at price 0.4
performs no strike check at all, emitting a symbol built from strike 0. -/
theorem strike_drop_partial :
    runOf today0 SClass.verticalSpread
        ⟨"bearish", 1 / 10, "negative", 1 / 4, "T", 1, today0⟩ =
      [⟨"T251017P00001000", 1, "buy", "market", "day"⟩] ∧
    runOf today0 SClass.longCall
        ⟨"bullish", 1 / 10, "positive", 1 / 4, "T", 2 / 5, today0⟩ =
      [⟨"T251017C00000000", 1, "buy", "market", "day"⟩] := by
  with_unfolding_all decide

/-- A snapshot whose price 2 makes the outer iron-condor strikes non-positive. -/
def dLow : Data := ⟨"neutral", 0, "neutral", 1 / 4, "T", 2, today0⟩

/-- A snapshot at price 1 whose OTM strike 1 − 2 is non-positive. -/
def dTiny : Data := ⟨"neutral", 0, "neutral", 1 / 4, "T", 1, today0⟩

/-- A bearish, negative-momentum snapshot at price 1, driving the put
backspread branch into its non-positive buy strike. -/
def dPutBack : Data := ⟨"bearish", 0, "negative", 1 / 4, "T", 1, today0⟩

/-- C4 amended: strike handling is per-strategy rather than uniform.
IronCondor returns no orders whenever any of its four computed strikes is
≤ 0, and Wheel, Strangle, Collar and the put branch of RatioBackspread
likewise return no orders when their checked strike (ATM − 2) is
non-positive; the per-leg check of VerticalSpread instead drops only the
offending leg and can return a partial subset of the two-leg spread; and
LongCall performs no strike check at all, emitting a symbol built from a
non-positive strike. -/
theorem strike_drop_amended :
    (∀ (today : Date) (d : Data),
        (atmOf d - 4 ≤ 0 ∨ atmOf d - 2 ≤ 0 ∨ atmOf d + 2 ≤ 0 ∨ atmOf d + 4 ≤ 0) →
        runOf today SClass.ironCondor d = []) ∧
    (∀ (today : Date) (d : Data), atmOf d - 2 ≤ 0 →
        runOf today SClass.wheel d = []) ∧
    (∀ (today : Date) (d : Data), atmOf d - 2 ≤ 0 →
        runOf today SClass.strangle d = []) ∧
    (∀ (today : Date) (d : Data), atmOf d - 2 ≤ 0 →
        runOf today SClass.collar d = []) ∧
    (∀ (today : Date) (d : Data), d.momentum = "negative" → atmOf d - 2 ≤ 0 →
        runOf today SClass.ratioBackspread d = []) ∧
    (runOf today0 SClass.verticalSpread
        ⟨"bearish", 1 / 10, "negative", 1 / 4, "T", 1, today0⟩).length = 1 ∧
    (runOf today0 SClass.longCall
        ⟨"bullish", 1 / 10, "positive", 1 / 4, "T", 2 / 5, today0⟩).map Order.symbol =
      ["T251017C00000000"] := by
  refine ⟨?_, ?_, ?_, ?_, ?_, ?_, ?_⟩
  · intro today d h
    simp only [runOf]
    rw [if_pos h]
  · intro today d h
    simp only [runOf]
    split <;> rfl
  · intro today d h
    simp only [runOf]
    split <;> rfl
  · intro today d h
    simp only [runOf]
    split <;> rfl
  · intro today d hm h
    simp only [runOf]
    split
    · rename_i hA
      rw [hm] at hA
      exact absurd hA (by decide)
    · split <;> rfl
  · with_unfolding_all decide
  · with_unfolding_all decide

/-- Witness for the hypotheses of strike_drop_amended: at price 2 the low
put strike 2 − 4 is non-positive and IronCondor returns no orders, and at
price 1 the checked strike 1 − 2 is non-positive, so Wheel, Strangle,
Collar and the put backspread all return no orders. -/
theorem strike_drop_amended_witness :
    ((atmOf dLow - 4 ≤ 0 ∨ atmOf dLow - 2 ≤ 0 ∨ atmOf dLow + 2 ≤ 0 ∨
        atmOf dLow + 4 ≤ 0) ∧
      runOf today0 SClass.ironCondor dLow = []) ∧
    (atmOf dTiny - 2 ≤ 0 ∧
      runOf today0 SClass.wheel dTiny = [] ∧
      runOf today0 SClass.strangle dTiny = [] ∧
      runOf today0 SClass.collar dTiny = []) ∧
    (dPutBack.momentum = "negative" ∧ atmOf dPutBack - 2 ≤ 0 ∧
      runOf today0 SClass.ratioBackspread dPutBack = []) := by
  have h : atmOf dLow - 4 ≤ 0 ∨ atmOf dLow - 2 ≤ 0 ∨ atmOf dLow + 2 ≤ 0 ∨
      atmOf dLow + 4 ≤ 0 := by with_unfolding_all decide
  have h2 : atmOf dTiny - 2 ≤ 0 := by with_unfolding_all decide
  have hm : dPutBack.momentum = "negative" := rfl
  have h3 : atmOf dPutBack - 2 ≤ 0 := by with_unfolding_all decide
  exact ⟨⟨h, strike_drop_amended.1 today0 dLow h⟩,
    ⟨h2, strike_drop_amended.2.1 today0 dTiny h2,
      strike_drop_amended.2.2.1 today0 dTiny h2,
      strike_drop_amended.2.2.2.1 today0 dTiny h2⟩,
    ⟨hm, h3, strike_drop_amended.2.2.2.2.1 today0 dPutBack hm h3⟩⟩

set_option maxRecDepth 8000 in
/-- C2 counterexample: at phase 2 with bullish trend, iv 0.5 ≥ threshold
0.25 and positive momentum, Wheel and CoveredCall tie at the best score 3
and both produce one leg on the probe snapshot, yet select returns
CoveredCall — whose class name is lexicographically LOWER than Wheel —
refuting the claim that the lexicographically highest name wins. -/
theorem tiebreak_picks_covered_call :
    (StrategySelector.mk (1 / 4) 2 []).select today0 "bullish" (1 / 2) "positive" =
      some SClass.coveredCall ∧
    bestScoreOf today0 2 dBull = some 3 ∧
    bestClassesOf today0 2 dBull 3 = [SClass.wheel, SClass.coveredCall] ∧
    (runOf today0 SClass.wheel dBull).length =
      (runOf today0 SClass.coveredCall dBull).length ∧
    className SClass.coveredCall < className SClass.wheel := by
  with_unfolding_all decide

/-- Inserting into a list by name never yields the empty list. -/
theorem insertByName_ne_nil (c : SClass) (l : List SClass) :
    insertByName c l ≠ [] := by
  cases l with
  | nil => simp [insertByName]
  | cons a t =>
      simp only [insertByName]
      split <;> simp

/-- Sorting a nonempty list by name yields a nonempty list. -/
theorem sortByName_ne_nil (l : List SClass) (h : l ≠ []) :
    sortByName l ≠ [] := by
  cases l with
  | nil => exact absurd rfl h
  | cons a t => exact insertByName_ne_nil a (sortByName t)

/-- The head after insertion is either the inserted element (then it is at
most the old head by name) or the old head (then that head is at most the
inserted element by name). -/
theorem insertByName_head (l : List SClass) (c m : SClass)
    (h : (insertByName c l).head? = some m) :
    (m = c ∧ ∀ x, l.head? = some x → className c ≤ className x) ∨
    (∃ x, l.head? = some x ∧ m = x ∧ className x ≤ className c) := by
  cases l with
  | nil =>
      left
      constructor
      · have : c = m := by simpa [insertByName] using h
        exact this.symm
      · intro x hx
        simp at hx
  | cons a t =>
      by_cases hle : className a ≤ className c
      · right
        refine ⟨a, rfl, ?_, hle⟩
        have h2 : some a = some m := by simpa [insertByName, hle] using h
        exact (Option.some.inj h2).symm
      · left
        have h2 : some c = some m := by simpa [insertByName, hle] using h
        refine ⟨(Option.some.inj h2).symm, ?_⟩
        intro x hx
        have hxa : a = x := Option.some.inj (by simpa using hx)
        subst hxa
        exact le_of_not_le hle

/-- The head of the name-sorted list is a member with minimal class name. -/
theorem sortByName_head_min (l : List SClass) (m : SClass)
    (h : (sortByName l).head? = some m) :
    m ∈ l ∧ ∀ x ∈ l, className m ≤ className x := by
  induction l generalizing m with
  | nil => simp [sortByName] at h
  | cons a t ih =>
      have h2 : (insertByName a (sortByName t)).head? = some m := h
      rcases insertByName_head _ _ _ h2 with ⟨hm, hmin⟩ | ⟨x, hx, hmx, hle⟩
      · subst hm
        refine ⟨List.mem_cons_self _ _, ?_⟩
        intro y hy
        rcases List.mem_cons.1 hy with rfl | hyt
        · exact le_refl _
        · have ht : t ≠ [] := List.ne_nil_of_mem hyt
          have hs : sortByName t ≠ [] := sortByName_ne_nil t ht
          obtain ⟨x₀, hx₀⟩ : ∃ x₀, (sortByName t).head? = some x₀ := by
            cases hq : sortByName t with
            | nil => exact absurd hq hs
            | cons b bt => exact ⟨b, rfl⟩
          obtain ⟨hx₀mem, hx₀min⟩ := ih x₀ hx₀
          exact le_trans (hmin x₀ hx₀) (hx₀min y hyt)
      · subst hmx
        obtain ⟨hmem, hmin⟩ := ih m hx
        refine ⟨List.mem_cons_of_mem _ hmem, ?_⟩
        intro y hy
        rcases List.mem_cons.1 hy with rfl | hyt
        · exact hle
        · exact hmin y hyt

set_option maxRecDepth 8000 in
/-- C2 amended: when leg counts also tie, select picks the tied strategy
whose class name is lexicographically LOWEST: the name tie-break takes the
head of the ascending name sort, which is a member of minimal name, and on
the concrete tie {Wheel, CoveredCall} select returns CoveredCall. -/
theorem tiebreak_lex_lowest :
    ((StrategySelector.mk (1 / 4) 2 []).select today0 "bullish" (1 / 2) "positive" =
      some SClass.coveredCall) ∧
    (∀ (ws : List SClass) (m : SClass), nameTieBreak ws = some m →
      m ∈ ws ∧ ∀ x ∈ ws, className m ≤ className x) := by
  constructor
  · with_unfolding_all decide
  · intro ws m h
    exact sortByName_head_min ws m h

/-- Witness for tiebreak_lex_lowest at the concrete tied pair. -/
theorem tiebreak_lex_lowest_witness :
    SClass.coveredCall ∈ [SClass.wheel, SClass.coveredCall] ∧
    ∀ x ∈ [SClass.wheel, SClass.coveredCall],
      className SClass.coveredCall ≤ className x :=
  tiebreak_lex_lowest.2 [SClass.wheel, SClass.coveredCall] SClass.coveredCall
    (by with_unfolding_all decide)

/-- C8: for any list of at least two intents, execute builds exactly one
multi-leg market order request whose top-level quantity and time-in-force
are the first intent's, carrying one leg per intent (symbol, ratio
quantity, side); in dry-run mode that request is returned with zero
transport calls. -/
theorem execute_multileg_dry_run (transport : ℕ → Bool) (o r : Intent)
    (rest : List Intent) :
    (TradeExecutor.mk true).execute transport (o :: r :: rest) =
      ([Request.mleg o.qty o.tif ((o :: r :: rest).map Intent.toLeg)], 0) := rfl

/-- C9: in live mode with a single intent, a transport that fails twice then
succeeds yields the one successful response after exactly 3 transport
calls, and a transport that fails three times yields an empty result list
after exactly 3 transport calls, with no exception (execute is total). -/
theorem execute_retry_transport_counts (t₁ t₂ : ℕ → Bool) (o : Intent)
    (h0 : t₁ 0 = false) (h1 : t₁ 1 = false) (h2 : t₁ 2 = true)
    (g0 : t₂ 0 = false) (g1 : t₂ 1 = false) (g2 : t₂ 2 = false) :
    (TradeExecutor.mk false).execute t₁ [o] = ([o.toSingle], 3) ∧
    (TradeExecutor.mk false).execute t₂ [o] = ([], 3) := by
  constructor
  · simp [TradeExecutor.execute, submitWithRetry, h0, h1, h2]
  · simp [TradeExecutor.execute, submitWithRetry, g0, g1, g2]

/-- Transport that succeeds only on the third call (index 2). -/
def tThird : ℕ → Bool := fun n => n == 2

/-- Transport that always fails. -/
def tNever : ℕ → Bool := fun _ => false

/-- A concrete single order intent. -/
def iGood : Intent := ⟨"XYZ251017C00100000", 1, .buy, .market, .day⟩

/-- Witness for execute_retry_transport_counts at concrete transports. -/
theorem execute_retry_transport_counts_witness :
    (TradeExecutor.mk false).execute tThird [iGood] = ([iGood.toSingle], 3) ∧
    (TradeExecutor.mk false).execute tNever [iGood] = ([], 3) :=
  execute_retry_transport_counts tThird tNever iGood rfl rfl rfl rfl rfl rfl

/-- C10: two selectors differing only in the allowed_strategies whitelist
return the same result from select on every input — the whitelist is stored
by the constructor but never consulted. -/
theorem allowed_strategies_no_effect (today : Date) (ivTh : ℚ) (p : ℕ)
    (a₁ a₂ : List String) (trend : String) (iv : ℚ) (momentum : String) :
    (StrategySelector.mk ivTh p a₁).select today trend iv momentum =
      (StrategySelector.mk ivTh p a₂).select today trend iv momentum := rfl


/-- At phase 1 the tie-break block reduces to taking the first tied class in
catalog order (`best_classes[0]`). -/
theorem resolveTie_phase1 (today : Date) (d : Data) (l : List SClass) :
    resolveTie today 1 d l = l.head? := by
  cases l with
  | nil => rfl
  | cons a t =>
      cases t with
      | nil => rfl
      | cons b t2 => simp [resolveTie]

/-- C6: a phase-1 selector applies neither the confidence gate nor the
long-put veto — it always returns some strategy attaining the maximal
score (whatever that score is), and on bearish/negative/low-iv metrics it
returns LongPut itself; a selector with phase > 1 returns no trade whenever
the maximal score is < 2, and never returns the LongPut strategy (the veto
turns a resolved LongPut winner into no trade). -/
theorem selector_phase_gates :
    (∀ (today : Date) (ivTh : ℚ) (trend : String) (iv : ℚ) (momentum : String)
        (a : List String), ∃ c b,
        bestScoreOf today 1 (dataFor today ivTh trend iv momentum) = some b ∧
        (StrategySelector.mk ivTh 1 a).select today trend iv momentum = some c ∧
        scoreOf today c (dataFor today ivTh trend iv momentum) = b) ∧
    ((StrategySelector.mk (1 / 4) 1 []).select today0 "bearish" (1 / 10) "negative" =
      some SClass.longPut) ∧
    (∀ (today : Date) (ivTh : ℚ) (trend : String) (iv : ℚ) (momentum : String)
        (a : List String) (p : ℕ) (b : ℚ), 1 < p →
        bestScoreOf today p (dataFor today ivTh trend iv momentum) = some b →
        b < 2 →
        (StrategySelector.mk ivTh p a).select today trend iv momentum = none) ∧
    (∀ (today : Date) (ivTh : ℚ) (trend : String) (iv : ℚ) (momentum : String)
        (a : List String) (p : ℕ) (c : SClass), 1 < p →
        (StrategySelector.mk ivTh p a).select today trend iv momentum = some c →
        c ≠ SClass.longPut) := by
  refine ⟨?_, ?_, ?_, ?_⟩
  · intro today ivTh trend iv momentum a
    have hsome : (bestScoreOf today 1 (dataFor today ivTh trend iv momentum)).isSome =
        true := rfl
    obtain ⟨b, hb⟩ := Option.isSome_iff_exists.1 hsome
    have hbmem : b ∈ (eligible 1).map
        (fun c => scoreOf today c (dataFor today ivTh trend iv momentum)) :=
      List.max?_mem max_choice hb
    obtain ⟨c₀, hc₀mem, hc₀eq⟩ := List.mem_map.1 hbmem
    have hfilter : c₀ ∈ bestClassesOf today 1 (dataFor today ivTh trend iv momentum) b := by
      simp only [bestClassesOf, List.mem_filter]
      exact ⟨hc₀mem, by simp [hc₀eq]⟩
    have hne : bestClassesOf today 1 (dataFor today ivTh trend iv momentum) b ≠ [] :=
      List.ne_nil_of_mem hfilter
    obtain ⟨c, hc⟩ : ∃ c,
        (bestClassesOf today 1 (dataFor today ivTh trend iv momentum) b).head? = some c := by
      cases hq : bestClassesOf today 1 (dataFor today ivTh trend iv momentum) b with
      | nil => exact absurd hq hne
      | cons x xs => exact ⟨x, rfl⟩
    have hcmem : c ∈ bestClassesOf today 1 (dataFor today ivTh trend iv momentum) b :=
      List.mem_of_mem_head? (Option.mem_def.2 hc)
    have hcpair : c ∈ eligible 1 ∧
        scoreOf today c (dataFor today ivTh trend iv momentum) = b := by
      simpa [bestClassesOf, List.mem_filter] using hcmem
    refine ⟨c, b, hb, ?_, hcpair.2⟩
    show selectCore today 1 ivTh trend iv momentum = some c
    simp only [selectCore]
    rw [hb]
    show afterBest today 1 (dataFor today ivTh trend iv momentum) b = some c
    simp only [afterBest]
    have hgate : ¬ (1 < 1 ∧ b < 2) := fun hh => absurd hh.1 (lt_irrefl 1)
    rw [if_neg hgate, resolveTie_phase1, hc]
    simp only [afterTie]
    have hveto : ¬ (1 < 1 ∧ c = SClass.longPut) := fun hh => absurd hh.1 (lt_irrefl 1)
    rw [if_neg hveto]
  · with_unfolding_all decide
  · intro today ivTh trend iv momentum a p b hp hb hlt
    show selectCore today p ivTh trend iv momentum = none
    simp only [selectCore]
    rw [hb]
    show afterBest today p (dataFor today ivTh trend iv momentum) b = none
    simp only [afterBest]
    rw [if_pos ⟨hp, hlt⟩]
  · intro today ivTh trend iv momentum a p c hp hsel hcLP
    subst hcLP
    have hsel2 : selectCore today p ivTh trend iv momentum = some SClass.longPut := hsel
    simp only [selectCore] at hsel2
    cases hbs : bestScoreOf today p (dataFor today ivTh trend iv momentum) with
    | none => rw [hbs] at hsel2; cases hsel2
    | some best =>
        rw [hbs] at hsel2
        have h3 : afterBest today p (dataFor today ivTh trend iv momentum) best =
            some SClass.longPut := hsel2
        simp only [afterBest] at h3
        by_cases hg : 1 < p ∧ best < 2
        · rw [if_pos hg] at h3; cases h3
        · rw [if_neg hg] at h3
          cases hrt : resolveTie today p (dataFor today ivTh trend iv momentum)
              (bestClassesOf today p (dataFor today ivTh trend iv momentum) best) with
          | none => rw [hrt] at h3; cases h3
          | some w =>
              rw [hrt] at h3
              simp only [afterTie] at h3
              by_cases hw : w = SClass.longPut
              · rw [if_pos ⟨hp, hw⟩] at h3; cases h3
              · rw [if_neg (fun hh => hw hh.2)] at h3
                exact hw (Option.some.inj h3)

set_option maxRecDepth 8000 in
/-- Witness for selector_phase_gates: the phase-2 confidence gate fires on
weak metrics, and the concrete phase-2 winner CoveredCall is not LongPut. -/
theorem selector_phase_gates_witness :
    ((StrategySelector.mk (1 / 4) 2 []).select today0 "none" 1 "none" = none) ∧
    SClass.coveredCall ≠ SClass.longPut :=
  ⟨selector_phase_gates.2.2.1 today0 (1 / 4) "none" 1 "none" [] 2 1 (by decide)
      (by with_unfolding_all decide) (by decide),
   selector_phase_gates.2.2.2 today0 (1 / 4) "bullish" (1 / 2) "positive" [] 2
      SClass.coveredCall (by decide) (by with_unfolding_all decide)⟩
